import Mathlib

/-!
Shallow embedding of the tool helpers of the python-rag-and-vertexai-for-oracle
tutorial repository, together with theorems about the SQL strings they build,
their error handling, and their conversation-history bookkeeping.

The embedded functions are:
  - query_database (src/05-enhance-db-prompt/database_tool.py and the identical
    copy in src/06-multi-table-db/database_tool.py), split into the pure SQL
    string builder query_database_sql and the effectful wrapper
    query_database_run;
  - execute_read_query and get_table_schema_string
    (src/05-enhance-db-prompt/database_utils.py);
  - research_document_store (src/05-enhance-db-prompt/doc_store_tool.py);
  - set_logging_level and get_gemini_response
    (src/05-enhance-db-prompt/langchain_gemini_db.py).

External effects (the SQLAlchemy engine, the Oracle connection, table
reflection, the LangChain agent invocation) are passed in as explicit
parameters returning Except values, so that every path of the python code,
including the exception handlers, is represented.
-/

namespace RagOracle

/-! ### Python string primitives -/

/-- Python lowercasing of a string (str.lower), modelled characterwise. -/
def pyLower (s : String) : String := ⟨s.data.map Char.toLower⟩

/-- Python uppercasing of a string (str.upper), modelled characterwise. -/
def pyUpper (s : String) : String := ⟨s.data.map Char.toUpper⟩

/-- Helper for substring containment on character lists. -/
def infixAux (needle : List Char) : List Char → Bool
  | [] => needle.isPrefixOf []
  | c :: rest => needle.isPrefixOf (c :: rest) || infixAux needle rest

/-- Python substring test: `needle in haystack` for strings. -/
def pyIn (needle haystack : String) : Bool := infixAux needle.data haystack.data

/-- Python truthiness of an optional-string argument defaulting to None:
None and the empty string are falsy, every other string is truthy. -/
def truthy : Option String → Bool
  | none => false
  | some s => s != ""

/-- Python repetition of a string: `s * n`. -/
def pyRepeat (s : String) (n : Nat) : String := String.join (List.replicate n s)

/-! ### query_database (database_tool.py): the dynamic SQL string builder -/

/-- The SQL string assembled by query_database from its arguments, exactly as
the python code builds it: start from the SELECT/FROM skeleton, append the
WHERE, GROUP BY and ORDER BY fragments when the corresponding argument is
truthy, and finally wrap the whole statement in a ROWNUM subquery when limit
is not None and positive. -/
def query_database_sql (table_name select_columns : String)
    (conditions group_by_columns order_by_columns : Option String)
    (limit : Option Int) : String :=
  let query0 := "SELECT " ++ select_columns ++ " FROM " ++ table_name
  let query1 :=
    if truthy conditions then query0 ++ " WHERE " ++ conditions.getD "" else query0
  let query2 :=
    if truthy group_by_columns then query1 ++ " GROUP BY " ++ group_by_columns.getD ""
    else query1
  let query3 :=
    if truthy order_by_columns then query2 ++ " ORDER BY " ++ order_by_columns.getD ""
    else query2
  match limit with
  | some l => if l > 0 then "SELECT * FROM (" ++ query3 ++ ") WHERE ROWNUM <= " ++ toString l
              else query3
  | none => query3

/-- The SQL string of query_database as the specification describes it: the
clause fragments written as independent pieces concatenated onto the
SELECT/FROM skeleton, with the ROWNUM wrapper applied when limit is given and
positive. -/
def query_database_sql_described (table_name select_columns : String)
    (conditions group_by_columns order_by_columns : Option String)
    (limit : Option Int) : String :=
  let inner :=
    "SELECT " ++ select_columns ++ " FROM " ++ table_name
      ++ (if truthy conditions then " WHERE " ++ conditions.getD "" else "")
      ++ (if truthy group_by_columns then " GROUP BY " ++ group_by_columns.getD "" else "")
      ++ (if truthy order_by_columns then " ORDER BY " ++ order_by_columns.getD "" else "")
  match limit with
  | some l => if l > 0 then "SELECT * FROM (" ++ inner ++ ") WHERE ROWNUM <= " ++ toString l
              else inner
  | none => inner

/-! ### The engine and connection environment (database_utils.py) -/

/-- The three connection environment variables read by database_utils.py. -/
structure DBConfig where
  db_user : Option String
  db_password : Option String
  db_dsn : Option String

/-- Outcome of get_engine in database_utils.py: it raises ValueError when any
of DB_USER, DB_PASSWORD, DB_DSN is missing or empty, raises ConnectionError
when the initial test connection fails, and otherwise yields the engine. The
initial test connection is the external effect connect_test. -/
def get_engine (cfg : DBConfig) (connect_test : Except String Unit) :
    Except String Unit :=
  if ¬ (truthy cfg.db_user && truthy cfg.db_password && truthy cfg.db_dsn) then
    .error "Database connection details (DB_USER, DB_PASSWORD, DB_DSN) not found in environment variables."
  else
    match connect_test with
    | .error e => .error ("Failed to create SQLAlchemy engine or connect: " ++ e)
    | .ok _ => .ok ()

/-- External behaviour of the Oracle database as seen by the tool functions:
opening a connection may raise, and executing a SQL string either raises or
yields the result column names and the fetched rows (each cell already
rendered by str). -/
structure OracleDB where
  connect : Except String Unit
  run_query : String → Except String (List String × List (List String))

/-- Result of running one of the tool functions: the value returned to the
caller, or the exception it propagates; plus whether a connection was opened
and whether it was closed. -/
structure CallOutcome where
  result : Except String String
  opened : Bool
  closed : Bool

/-- The markdown table query_database formats its rows into. -/
def markdownTable (cols : List String) (rows : List (List String)) : String :=
  let header := "| " ++ String.intercalate " | " cols ++ " |\n"
  let sep := "| " ++ pyRepeat "---|" cols.length ++ "\n"
  rows.foldl (fun acc row => acc ++ "| " ++ String.intercalate " | " row ++ " |\n")
    (header ++ sep)

/-- The full behaviour of query_database in database_tool.py. get_engine is
called before the try block, so its exceptions propagate; everything raised
inside the try block is caught by the bare except clause and turned into an
error string; the finally clause closes the connection when one was opened. -/
def query_database_run (cfg : DBConfig) (connect_test : Except String Unit)
    (db : OracleDB) (table_name select_columns : String)
    (conditions group_by_columns order_by_columns : Option String)
    (limit : Option Int) : CallOutcome :=
  match get_engine cfg connect_test with
  | .error e => { result := .error e, opened := false, closed := false }
  | .ok _ =>
    match db.connect with
    | .error e =>
        { result := .ok ("Error performing database query: " ++ e
            ++ ". Please check the query components."),
          opened := false, closed := false }
    | .ok _ =>
      let query_string :=
        query_database_sql table_name select_columns conditions
          group_by_columns order_by_columns limit
      match db.run_query query_string with
      | .error e =>
          { result := .ok ("Error performing database query: " ++ e
              ++ ". Please check the query components."),
            opened := true, closed := true }
      | .ok (cols, rows) =>
          if rows.isEmpty then
            { result := .ok ("No data found for the given criteria in " ++ table_name ++ "."),
              opened := true, closed := true }
          else
            { result := .ok (markdownTable cols rows), opened := true, closed := true }

/-! ### Table reflection and execute_read_query (database_utils.py) -/

/-- A reflected column: its name and the rendering of its SQLAlchemy type. -/
structure ColumnInfo where
  name : String
  type : String
deriving DecidableEq

/-- A reflected SQLAlchemy Table: its name and its columns in order. -/
structure ReflectedTable where
  name : String
  columns : List ColumnInfo
deriving DecidableEq

/-- The two exception kinds get_table_reflection raises: ValueError when the
table does not exist in the configured schema, RuntimeError for any other
SQLAlchemy reflection failure. Each carries its message. -/
inductive ReflectError where
  | valueError (msg : String)
  | runtimeError (msg : String)
deriving DecidableEq

/-- The message str(e) of a reflection exception. -/
def ReflectError.message : ReflectError → String
  | .valueError m => m
  | .runtimeError m => m

/-- The SQL statement built by execute_read_query from a reflected table, an
optional WHERE condition and an optional limit, exactly as the python code
builds it: SELECT of the comma-joined reflected column names FROM the table
name, the WHERE fragment when conditions is truthy, and for a non-None limit
the ROWNUM bound introduced with AND when the substring WHERE already occurs
in the statement and with WHERE otherwise. The python default for limit is 5,
mirrored by the default argument. -/
def execute_read_query_sql (table : ReflectedTable) (conditions : Option String)
    (limit : Option Int := some 5) : String :=
  let select_cols := table.columns.map ColumnInfo.name
  let full_qualified_table_name := table.name
  let stmt0 := "SELECT " ++ String.intercalate ", " select_cols ++ " FROM "
    ++ full_qualified_table_name
  let stmt_template :=
    if truthy conditions then stmt0 ++ " WHERE " ++ conditions.getD "" else stmt0
  match limit with
  | some l =>
      if pyIn "WHERE" stmt_template then stmt_template ++ " AND ROWNUM <= " ++ toString l
      else stmt_template ++ " WHERE ROWNUM <= " ++ toString l
  | none => stmt_template

/-- The full behaviour of execute_read_query in database_utils.py. get_engine
is called before the try block, so its exceptions propagate; reflection errors
and everything the connection raises inside the try block are caught by the
typed except clause and turned into an error string; the finally clause closes
the connection when one was opened. -/
def execute_read_query_run (cfg : DBConfig) (connect_test : Except String Unit)
    (db : OracleDB) (reflect : String → Except ReflectError ReflectedTable)
    (table_name : String) (conditions : Option String)
    (limit : Option Int := some 5) : CallOutcome :=
  match get_engine cfg connect_test with
  | .error e => { result := .error e, opened := false, closed := false }
  | .ok _ =>
    match reflect table_name with
    | .error e =>
        { result := .ok ("Error executing query: " ++ e.message),
          opened := false, closed := false }
    | .ok table =>
      match db.connect with
      | .error e =>
          { result := .ok ("Error executing query: " ++ e),
            opened := false, closed := false }
      | .ok _ =>
        let stmt := execute_read_query_sql table conditions limit
        match db.run_query stmt with
        | .error e =>
            { result := .ok ("Error executing query: " ++ e),
              opened := true, closed := true }
        | .ok (cols, rows) =>
            if rows.isEmpty then
              { result := .ok ("No data found in \x27" ++ table_name
                  ++ "\x27 for the given conditions."),
                opened := true, closed := true }
            else
              { result := .ok (String.intercalate "\n"
                  (String.intercalate ", " cols :: rows.map (String.intercalate ", "))),
                opened := true, closed := true }

/-- The two exception classes get_engine raises: ValueError when a connection
environment variable is missing or empty, ConnectionError when engine creation
or its test connection fails. Each carries its message. -/
inductive EngineError where
  | valueError (msg : String)
  | connectionError (msg : String)
deriving DecidableEq

/-- The message str(e) of an engine exception. -/
def EngineError.message : EngineError → String
  | .valueError m => m
  | .connectionError m => m

/-- Outcome of get_engine with the exception class kept explicit, for callers
whose except clauses distinguish ValueError from ConnectionError. Same
behaviour as get_engine, with the error constructor recording the class. -/
def get_engine_typed (cfg : DBConfig) (connect_test : Except String Unit) :
    Except EngineError Unit :=
  if ¬ (truthy cfg.db_user && truthy cfg.db_password && truthy cfg.db_dsn) then
    .error (.valueError "Database connection details (DB_USER, DB_PASSWORD, DB_DSN) not found in environment variables.")
  else
    match connect_test with
    | .error e =>
        .error (.connectionError ("Failed to create SQLAlchemy engine or connect: " ++ e))
    | .ok _ => .ok ()

/-- The schema string computation of get_table_schema_string, including the
get_engine call made inside get_table_reflection. On a successful engine call
the reflection effect reflect is called once on table_name: success yields
the header line followed by one line per column, accumulated by string
concatenation as in the python loop, and a reflection ValueError or
RuntimeError is caught and its message returned. The except clause of
get_table_schema_string catches only ValueError and RuntimeError, so the
ValueError of get_engine for missing environment variables is also returned
as the result string, while its ConnectionError is not caught and propagates
to the caller, modelled as the error case. -/
def get_table_schema_string (cfg : DBConfig) (connect_test : Except String Unit)
    (schema : String) (reflect : String → Except ReflectError ReflectedTable)
    (table_name : String) : Except String String :=
  match get_engine_typed cfg connect_test with
  | .error (.valueError m) => .ok m
  | .error (.connectionError m) => .error m
  | .ok _ =>
    match reflect table_name with
    | .ok table =>
        .ok (table.columns.foldl
          (fun acc c => acc ++ "- " ++ c.name ++ ": " ++ c.type ++ "\n")
          ("Table: " ++ schema ++ "." ++ table.name ++ "\nColumns:\n"))
    | .error e => .ok e.message

/-! ### The mock document store (doc_store_tool.py) -/

/-- Fixed answer about Flask returned by the mock document store. -/
def flask_response : String :=
  "Flask is a lightweight Python web framework for building web applications. It\x27s known for its simplicity and flexibility, making it a good choice for smaller projects and APIs. It uses Jinja2 for templating and Werkzeug for WSGI utilities."

/-- Fixed answer about the Gemini API returned by the mock document store. -/
def gemini_response : String :=
  "The Gemini API allows developers to access Google\x27s large language models. It\x27s often used via the `google-generativeai` library or through frameworks like LangChain. Google AI Studio is a web-based tool to prototype with Gemini models."

/-- Fixed answer about RAG returned by the mock document store. -/
def rag_response : String :=
  "Retrieval-Augmented Generation (RAG) is an AI framework that retrieves facts from an external knowledge base to ground large language models (LLMs) on the most accurate and up-to-date information. This helps reduce hallucinations and provides specific, verifiable answers. It involves a retrieval component (the \x27Tool\x27 here) and a generation component (the LLM)."

/-- Fixed answer about Linux VMs returned by the mock document store. -/
def linux_vm_response : String :=
  "A Linux VM (Virtual Machine) provides a virtualized operating system environment running on top of physical hardware. It allows you to run Linux alongside other operating systems or to isolate environments for development and deployment. Common uses include hosting web applications, databases, or development servers."

/-- Fixed answer about LangChain tools returned by the mock document store. -/
def tool_response : String :=
  "In LangChain, a \x27Tool\x27 is an interface that an agent can use to interact with the world. This could be anything from searching the internet, calling a custom API, interacting with a database, or, in the context of RAG, retrieving information from a specific knowledge base. Agents learn to use tools based on their descriptions and the prompt provided."

/-- Fallback string of the mock document store. -/
def no_info_response : String :=
  "No specific information found related to your query in the document store. Please try rephrasing or asking about a different topic."

/-- The mock document store of doc_store_tool.py: lowercase the query, then
run the fixed chain of substring tests in source order and return the first
matching canned string, falling through to the fallback string. -/
def research_document_store (query : String) : String :=
  let q := pyLower query
  if pyIn "python" q && pyIn "flask" q then flask_response
  else if pyIn "gemini api" q || pyIn "google ai studio" q then gemini_response
  else if pyIn "rag" q || pyIn "retrieval augmented generation" q then rag_response
  else if pyIn "linux vm" q || pyIn "virtual machine" q then linux_vm_response
  else if pyIn "tool" q && (pyIn "langchain" q || pyIn "agent" q) then tool_response
  else no_info_response

/-! ### Logging control (langchain_gemini_db.py) -/

/-- Modelled from the python standard library: the attributes of the logging
module whose uppercase name is bound to an integer level, with their values.
These are exactly the names on which getattr(logging, level.upper(), None)
yields an int. -/
def logging_level_names : List (String × Int) :=
  [("CRITICAL", 50), ("FATAL", 50), ("ERROR", 40), ("WARNING", 30), ("WARN", 30),
   ("INFO", 20), ("DEBUG", 10), ("NOTSET", 0)]

/-- The combined effect of getattr(logging, name, None) followed by the
isinstance(_, int) check: some level value for the integer level names, none
otherwise. -/
def getattr_logging_int (name : String) : Option Int :=
  (logging_level_names.find? (fun p => p.1 == name)).map Prod.snd

/-- set_logging_level of langchain_gemini_db.py: look up level.upper() in the
logging module; raise ValueError when the result is not an int, otherwise set
the root logger to that numeric level. The ok value is the numeric level the
root logger is set to. -/
def set_logging_level (level : String) : Except String Int :=
  match getattr_logging_int (pyUpper level) with
  | some numeric_level => .ok numeric_level
  | none => .error ("Invalid log level: " ++ level)

/-! ### Conversation history (langchain_gemini_db.py, get_gemini_response) -/

/-- One element of the parts list of a history dictionary. -/
structure Part where
  text : String
deriving DecidableEq

/-- One turn of the chat history: a dictionary with a role and a parts list. -/
structure Turn where
  role : String
  parts : List Part
deriving DecidableEq

/-- A LangChain message: HumanMessage or AIMessage with its content. -/
inductive LCMessage where
  | human (content : String)
  | ai (content : String)
deriving DecidableEq

/-- The replay loop of get_gemini_response: each turn with role human becomes
a HumanMessage of parts[0].text and each turn with role model an AIMessage;
other roles are skipped. Indexing parts[0] of an empty parts list raises
IndexError, modelled as none. -/
def replayHistory : List Turn → Option (List LCMessage)
  | [] => some []
  | t :: ts =>
    if t.role == "human" then
      match t.parts.head? with
      | none => none
      | some p => (replayHistory ts).map (fun l => LCMessage.human p.text :: l)
    else if t.role == "model" then
      match t.parts.head? with
      | none => none
      | some p => (replayHistory ts).map (fun l => LCMessage.ai p.text :: l)
    else
      replayHistory ts

/-- The error string returned when agent setup raises. -/
def configErrorMessage (e : String) : String :=
  "Configuration Error: " ++ e ++ ". Please ensure your VM has the correct service account and permissions (Vertex AI User role) and that your project/location are correctly configured if needed."

/-- The error string returned when the agent invocation raises. -/
def agentErrorMessage (e : String) : String :=
  "Error processing your request: " ++ e ++ ". Please try again."

/-- get_gemini_response of langchain_gemini_db.py. The setup parameter is the
outcome of setup_langchain_agent: on failure the function returns the
configuration error string with an empty history list. On success the replay
loop converts the input history (None is replayed as no turns) and the
resulting invoke call either fails, returning the agent error string with the
original chat_history argument unchanged, or succeeds, returning the response
text with a fresh list equal to the input history plus the new human and model
turns. An IndexError from the replay loop propagates, modelled as none. -/
def get_gemini_response
    (setup : Except String (String → List LCMessage → Except String String))
    (prompt_text : String) (chat_history : Option (List Turn)) :
    Option (String × Option (List Turn)) :=
  match setup with
  | .error e => some (configErrorMessage e, some [])
  | .ok invoke =>
    match replayHistory (chat_history.getD []) with
    | none => none
    | some lc_chat_history =>
      match invoke prompt_text lc_chat_history with
      | .error e => some (agentErrorMessage e, chat_history)
      | .ok response_text =>
          some (response_text,
            some (chat_history.getD []
              ++ [⟨"human", [⟨prompt_text⟩]⟩, ⟨"model", [⟨response_text⟩]⟩]))

/-- The mapping from a well-formed history turn to the LangChain message the
replay loop produces for it, as the specification describes it. -/
def turnToLC (t : Turn) : LCMessage :=
  if t.role == "human" then LCMessage.human ((t.parts.headD ⟨""⟩).text)
  else LCMessage.ai ((t.parts.headD ⟨""⟩).text)

/-- The schema lines, one per column in order, as the specification describes
the loop body of get_table_schema_string. -/
def schemaLines : List ColumnInfo → String
  | [] => ""
  | c :: cs => "- " ++ c.name ++ ": " ++ c.type ++ "\n" ++ schemaLines cs

/-- A database stub whose connection and queries always succeed, used to
evaluate the tool functions on concrete inputs. -/
def trivialDB : OracleDB :=
  { connect := .ok (), run_query := fun _ => .ok (["VIN"], [["5YJ3E1EA"]]) }

/-! ### Helper lemmas on string affixes -/

theorem affix_end (a c : String) : ∃ p q, a ++ c = p ++ c ++ q :=
  ⟨a, "", by simp [String.append_empty]⟩

theorem affix_right {x c : String} (h : ∃ p q, x = p ++ c ++ q) (y : String) :
    ∃ p q, x ++ y = p ++ c ++ q := by
  obtain ⟨p, q, rfl⟩ := h
  exact ⟨p, q ++ y, by simp [String.append_assoc]⟩

theorem affix_left {x c : String} (w : String) (h : ∃ p q, x = p ++ c ++ q) :
    ∃ p q, w ++ x = p ++ c ++ q := by
  obtain ⟨p, q, rfl⟩ := h
  exact ⟨w ++ p, q, by simp [String.append_assoc]⟩

/-! ### Theorems for the claims -/

/-- C1: the SQL string query_database passes to the database client is
assembled purely by concatenation, equal to the SELECT/FROM skeleton with the
WHERE fragment appended when conditions is truthy, then the GROUP BY fragment
when given, then the ORDER BY fragment when given, wrapped in the ROWNUM
subquery exactly when limit is not None and positive, with no other
transformation of any argument. -/
theorem query_database_sql_matches_description
    (table_name select_columns : String)
    (conditions group_by_columns order_by_columns : Option String)
    (limit : Option Int) :
    query_database_sql table_name select_columns conditions group_by_columns
        order_by_columns limit
      = query_database_sql_described table_name select_columns conditions
          group_by_columns order_by_columns limit := by
  simp only [query_database_sql, query_database_sql_described]
  cases hc : truthy conditions <;> cases hg : truthy group_by_columns <;>
    cases ho : truthy order_by_columns <;> cases limit <;>
      simp [String.append_assoc, String.append_empty]

/-- C2: query_database performs no parameterization and no validation: for
every truthy conditions string, the conditions argument appears verbatim and
unmodified as a contiguous substring of the SQL string handed to the database
client. -/
theorem query_database_sql_embeds_conditions_verbatim
    (table_name select_columns conditions : String)
    (group_by_columns order_by_columns : Option String) (limit : Option Int)
    (hc : conditions ≠ "") :
    ∃ pre post,
      query_database_sql table_name select_columns (some conditions)
          group_by_columns order_by_columns limit
        = pre ++ conditions ++ post := by
  have htc : truthy (some conditions) = true := by simp [truthy, hc]
  simp only [query_database_sql, htc, if_true, Option.getD_some]
  have h1 : ∃ p q,
      ("SELECT " ++ select_columns ++ " FROM " ++ table_name) ++ " WHERE " ++ conditions
        = p ++ conditions ++ q :=
    affix_end _ _
  have h3 : ∃ p q,
      (if truthy order_by_columns then
          (if truthy group_by_columns then
              ("SELECT " ++ select_columns ++ " FROM " ++ table_name) ++ " WHERE "
                ++ conditions ++ " GROUP BY " ++ group_by_columns.getD ""
            else
              ("SELECT " ++ select_columns ++ " FROM " ++ table_name) ++ " WHERE "
                ++ conditions)
            ++ " ORDER BY " ++ order_by_columns.getD ""
        else
          (if truthy group_by_columns then
              ("SELECT " ++ select_columns ++ " FROM " ++ table_name) ++ " WHERE "
                ++ conditions ++ " GROUP BY " ++ group_by_columns.getD ""
            else
              ("SELECT " ++ select_columns ++ " FROM " ++ table_name) ++ " WHERE "
                ++ conditions))
        = p ++ conditions ++ q := by
    cases hg : truthy group_by_columns <;> cases ho : truthy order_by_columns <;>
      simp only [if_true, if_false, Bool.false_eq_true, ite_false, ite_true]
    · exact h1
    · exact affix_right (affix_right h1 _) _
    · exact affix_right (affix_right h1 _) _
    · exact affix_right (affix_right (affix_right (affix_right h1 _) _) _) _
  cases limit with
  | none => exact h3
  | some l =>
    by_cases hl : l > 0
    · simp only [hl, if_true]
      exact affix_right (affix_right (affix_left _ h3) _) _
    · simp only [hl, if_false]
      exact h3

/-- Witness for C2: a conditions string carrying a UNION injection appears
verbatim in the SQL string built for the electricvehicles table. -/
theorem query_database_sql_embeds_conditions_verbatim_witness :
    ∃ pre post,
      query_database_sql "electricvehicles" "*"
          (some "1=1 UNION SELECT username, password FROM users")
          none none none
        = pre ++ "1=1 UNION SELECT username, password FROM users" ++ post :=
  query_database_sql_embeds_conditions_verbatim "electricvehicles" "*"
    "1=1 UNION SELECT username, password FROM users" none none none (by decide)

/-- C3: the SQL statement of execute_read_query is the concatenation of the
SELECT of the comma-joined reflected column names and the reflected table
name, the WHERE fragment when conditions is truthy, and, for every non-None
limit, the ROWNUM bound appended with AND when the substring WHERE already
occurs in the statement and with WHERE otherwise; the limit argument defaults
to 5. -/
theorem execute_read_query_sql_spec (table : ReflectedTable)
    (conditions : Option String) :
    (execute_read_query_sql table none none
       = "SELECT " ++ String.intercalate ", " (table.columns.map ColumnInfo.name)
         ++ " FROM " ++ table.name)
    ∧ (∀ cs : String, cs ≠ "" →
        execute_read_query_sql table (some cs) none
          = execute_read_query_sql table none none ++ " WHERE " ++ cs)
    ∧ (∀ l : Int,
        execute_read_query_sql table conditions (some l)
          = if pyIn "WHERE" (execute_read_query_sql table conditions none)
            then execute_read_query_sql table conditions none
              ++ " AND ROWNUM <= " ++ toString l
            else execute_read_query_sql table conditions none
              ++ " WHERE ROWNUM <= " ++ toString l)
    ∧ execute_read_query_sql table conditions
        = execute_read_query_sql table conditions (some 5) := by
  refine ⟨?_, ?_, ?_, rfl⟩
  · simp [execute_read_query_sql, truthy]
  · intro cs hcs
    have htc : truthy (some cs) = true := by simp [truthy, hcs]
    have htn : truthy (none : Option String) = false := rfl
    simp [execute_read_query_sql, htc, htn]
  · intro l
    simp only [execute_read_query_sql]

/-- Witness for C3: the described clauses evaluated on a concrete two-column
reflected table with a concrete condition. -/
theorem execute_read_query_sql_spec_witness :
    execute_read_query_sql ⟨"electricvehicles", [⟨"VIN", "VARCHAR2"⟩, ⟨"MAKE", "VARCHAR2"⟩]⟩
        (some "MODEL LIKE \x27Tesla%\x27") none
      = execute_read_query_sql ⟨"electricvehicles", [⟨"VIN", "VARCHAR2"⟩, ⟨"MAKE", "VARCHAR2"⟩]⟩
          none none ++ " WHERE " ++ "MODEL LIKE \x27Tesla%\x27" :=
  (execute_read_query_sql_spec
      ⟨"electricvehicles", [⟨"VIN", "VARCHAR2"⟩, ⟨"MAKE", "VARCHAR2"⟩]⟩ none).2.1
    "MODEL LIKE \x27Tesla%\x27" (by decide)

/-- C10: the two query helpers treat non-positive limits oppositely. For
query_database a limit of 0 or a negative limit produces the same unbounded
SQL string as passing no limit, while execute_read_query appends the ROWNUM
bound for every non-None limit, including 0 and negative ones, and its limit
argument defaults to 5. -/
theorem nonpositive_limit_treatment :
    (∀ (table_name select_columns : String)
        (conditions group_by_columns order_by_columns : Option String) (l : Int),
        l ≤ 0 →
        query_database_sql table_name select_columns conditions group_by_columns
            order_by_columns (some l)
          = query_database_sql table_name select_columns conditions group_by_columns
              order_by_columns none)
    ∧ (∀ (table : ReflectedTable) (conditions : Option String) (l : Int),
        execute_read_query_sql table conditions (some l)
          = if pyIn "WHERE" (execute_read_query_sql table conditions none)
            then execute_read_query_sql table conditions none
              ++ " AND ROWNUM <= " ++ toString l
            else execute_read_query_sql table conditions none
              ++ " WHERE ROWNUM <= " ++ toString l)
    ∧ (∀ (table : ReflectedTable) (conditions : Option String),
        execute_read_query_sql table conditions
          = execute_read_query_sql table conditions (some 5)) := by
  refine ⟨?_, ?_, fun _ _ => rfl⟩
  · intro t s c g o l hl
    have hnl : ¬ (l > 0) := by omega
    simp only [query_database_sql, hnl, if_false]
  · intro table c l
    simp only [execute_read_query_sql]

/-- Witness for C10: with limit 0, query_database builds the unbounded query,
while execute_read_query appends a ROWNUM bound matching no rows. -/
theorem nonpositive_limit_treatment_witness :
    (query_database_sql "electricvehicles" "*" none none none (some 0)
       = query_database_sql "electricvehicles" "*" none none none none)
    ∧ execute_read_query_sql ⟨"electricvehicles", [⟨"VIN", "VARCHAR2"⟩]⟩ none (some 0)
       = "SELECT VIN FROM electricvehicles WHERE ROWNUM <= 0" :=
  ⟨nonpositive_limit_treatment.1 "electricvehicles" "*" none none none 0 (by decide),
   by
    rw [nonpositive_limit_treatment.2.1 ⟨"electricvehicles", [⟨"VIN", "VARCHAR2"⟩]⟩ none 0]
    decide⟩

/-- Helper: on a well-formed history, where every turn has role human or
model and a nonempty parts list, the replay loop succeeds and produces
exactly the turnwise message mapping. -/
theorem replayHistory_eq_map (hist : List Turn)
    (hwf : ∀ t ∈ hist, (t.role = "human" ∨ t.role = "model") ∧ t.parts ≠ []) :
    replayHistory hist = some (hist.map turnToLC) := by
  induction hist with
  | nil => rfl
  | cons t ts ih =>
    obtain ⟨hrole, hparts⟩ := hwf t (List.mem_cons_self t ts)
    have ih2 := ih fun x hx => hwf x (List.mem_cons_of_mem _ hx)
    obtain ⟨p, ps, hps⟩ := List.exists_cons_of_ne_nil hparts
    rcases hrole with h | h <;>
      simp [replayHistory, h, hps, ih2, turnToLC]

/-- C4: conversation history is a list of dictionaries appended to and
replayed. On a history whose turns are human or model dictionaries, the
replay loop feeds the agent invocation the in-order translation of each turn
(human to HumanMessage, model to AIMessage of the first part text), and a
successful invocation returns a new list equal to the input history with
exactly the new human dictionary and the new model dictionary appended. -/
theorem get_gemini_response_appends_history
    (invoke : String → List LCMessage → Except String String)
    (prompt_text response_text : String) (hist : List Turn)
    (hwf : ∀ t ∈ hist, (t.role = "human" ∨ t.role = "model") ∧ t.parts ≠ [])
    (hinv : invoke prompt_text (hist.map turnToLC) = .ok response_text) :
    replayHistory hist = some (hist.map turnToLC)
    ∧ get_gemini_response (.ok invoke) prompt_text (some hist)
        = some (response_text,
            some (hist ++ [⟨"human", [⟨prompt_text⟩]⟩, ⟨"model", [⟨response_text⟩]⟩])) := by
  have hreplay := replayHistory_eq_map hist hwf
  refine ⟨hreplay, ?_⟩
  simp [get_gemini_response, hreplay, hinv]

/-- Witness for C4: a concrete two-turn history replayed and extended by a
successful invocation. -/
theorem get_gemini_response_appends_history_witness :
    replayHistory [⟨"human", [⟨"hi"⟩]⟩, ⟨"model", [⟨"hello"⟩]⟩]
        = some (List.map turnToLC [⟨"human", [⟨"hi"⟩]⟩, ⟨"model", [⟨"hello"⟩]⟩])
    ∧ get_gemini_response (.ok fun _ _ => .ok "Brasilia") "What is the capital of Brazil?"
        (some [⟨"human", [⟨"hi"⟩]⟩, ⟨"model", [⟨"hello"⟩]⟩])
      = some ("Brasilia",
          some ([⟨"human", [⟨"hi"⟩]⟩, ⟨"model", [⟨"hello"⟩]⟩]
            ++ [⟨"human", [⟨"What is the capital of Brazil?"⟩]⟩,
                ⟨"model", [⟨"Brasilia"⟩]⟩])) :=
  get_gemini_response_appends_history (fun _ _ => .ok "Brasilia")
    "What is the capital of Brazil?" "Brasilia"
    [⟨"human", [⟨"hi"⟩]⟩, ⟨"model", [⟨"hello"⟩]⟩] (by decide) rfl

/-- C9: history is preserved on invocation failure but dropped on setup
failure. When the agent executor invoke call raises, get_gemini_response
returns the agent error string with the exact input chat_history unchanged;
when agent setup raises, it returns the configuration error string with an
empty list, discarding any input history. -/
theorem get_gemini_response_error_paths :
    (∀ (e prompt_text : String) (chat_history : Option (List Turn)),
        get_gemini_response (.error e) prompt_text chat_history
          = some (configErrorMessage e, some []))
    ∧ (∀ (invoke : String → List LCMessage → Except String String)
        (prompt_text : String) (chat_history : Option (List Turn))
        (lc : List LCMessage) (e : String),
        replayHistory (chat_history.getD []) = some lc →
        invoke prompt_text lc = .error e →
        get_gemini_response (.ok invoke) prompt_text chat_history
          = some (agentErrorMessage e, chat_history)) := by
  constructor
  · intro e prompt_text chat_history
    rfl
  · intro invoke prompt_text chat_history lc e hreplay hinv
    simp [get_gemini_response, hreplay, hinv]

/-- Witness for C9: a setup failure discards a nonempty history, and an
invocation failure returns the same nonempty history untouched. -/
theorem get_gemini_response_error_paths_witness :
    get_gemini_response (.error "no credentials") "hi"
        (some [⟨"human", [⟨"old"⟩]⟩])
      = some (configErrorMessage "no credentials", some [])
    ∧ get_gemini_response (.ok fun _ _ => .error "quota") "hi"
        (some [⟨"human", [⟨"old"⟩]⟩])
      = some (agentErrorMessage "quota", some [⟨"human", [⟨"old"⟩]⟩]) :=
  ⟨get_gemini_response_error_paths.1 "no credentials" "hi" (some [⟨"human", [⟨"old"⟩]⟩]),
   get_gemini_response_error_paths.2 (fun _ _ => .error "quota") "hi"
     (some [⟨"human", [⟨"old"⟩]⟩]) [.human "old"] "quota" rfl rfl⟩

/-- C5: the document store is a mock: a pure function of the query string
that lowercases the input, so two queries with the same lowercasing always
produce identical results, and every result is one of the six fixed canned
strings or the fixed fallback string. -/
theorem research_document_store_spec :
    (∀ q1 q2 : String, pyLower q1 = pyLower q2 →
        research_document_store q1 = research_document_store q2)
    ∧ (∀ q : String,
        research_document_store q = flask_response
        ∨ research_document_store q = gemini_response
        ∨ research_document_store q = rag_response
        ∨ research_document_store q = linux_vm_response
        ∨ research_document_store q = tool_response
        ∨ research_document_store q = no_info_response) := by
  constructor
  · intro q1 q2 h
    unfold research_document_store
    rw [h]
  · intro q
    simp only [research_document_store]
    split_ifs <;> simp

/-- Witness for C5: a query and its differently-cased variant produce the
same canned answer. -/
theorem research_document_store_spec_witness :
    research_document_store "Tell me about PYTHON Flask"
      = research_document_store "tell me about python flask" :=
  research_document_store_spec.1 "Tell me about PYTHON Flask"
    "tell me about python flask" (by decide)

/-- C6: set_logging_level raises ValueError exactly when level.upper() is not
the name of an integer logging level of the logging module, and otherwise
sets the root logger to the numeric value bound to that name. -/
theorem set_logging_level_spec (level : String) :
    ((∃ e, set_logging_level level = .error e)
        ↔ ¬ pyUpper level ∈ logging_level_names.map Prod.fst)
    ∧ (∀ n : Int, set_logging_level level = .ok n →
        getattr_logging_int (pyUpper level) = some n) := by
  cases hf : logging_level_names.find? (fun p => p.1 == pyUpper level) with
  | none =>
    have hnm : ¬ pyUpper level ∈ logging_level_names.map Prod.fst := by
      intro hm
      obtain ⟨pr, hpr, hfst⟩ := List.mem_map.1 hm
      have := List.find?_eq_none.1 hf pr hpr
      simp [hfst] at this
    constructor
    · constructor
      · intro _
        exact hnm
      · intro _
        exact ⟨"Invalid log level: " ++ level,
          by simp [set_logging_level, getattr_logging_int, hf]⟩
    · intro n hn
      simp [set_logging_level, getattr_logging_int, hf] at hn
  | some pr =>
    have hp : (pr.1 == pyUpper level) = true := by
      simpa using List.find?_some hf
    have hmem : pr ∈ logging_level_names := List.mem_of_find?_eq_some hf
    have hm : pyUpper level ∈ logging_level_names.map Prod.fst :=
      List.mem_map.2 ⟨pr, hmem, by simpa using hp⟩
    constructor
    · constructor
      · rintro ⟨e, he⟩
        simp [set_logging_level, getattr_logging_int, hf] at he
      · intro hc
        exact absurd hm hc
    · intro n hn
      simp only [set_logging_level, getattr_logging_int, hf, Option.map_some] at hn ⊢
      cases hn
      rfl

/-- Witness for C6: the lowercase level name debug resolves to the numeric
level 10. -/
theorem set_logging_level_spec_witness :
    getattr_logging_int (pyUpper "debug") = some 10 :=
  (set_logging_level_spec "debug").2 10 rfl

/-- Helper: the accumulating loop of get_table_schema_string appends exactly
the per-column lines. -/
theorem foldl_schemaLines (cols : List ColumnInfo) :
    ∀ acc : String,
      cols.foldl (fun acc c => acc ++ "- " ++ c.name ++ ": " ++ c.type ++ "\n") acc
        = acc ++ schemaLines cols := by
  induction cols with
  | nil => intro acc; simp [schemaLines, String.append_empty]
  | cons c cs ih =>
    intro acc
    rw [List.foldl_cons, ih]
    simp [schemaLines, String.append_assoc]

/-- Helper: the typed engine outcome agrees with get_engine once the
exception class is erased to its message. -/
theorem get_engine_typed_agrees (cfg : DBConfig) (connect_test : Except String Unit) :
    (get_engine_typed cfg connect_test).mapError EngineError.message
      = get_engine cfg connect_test := by
  simp only [get_engine_typed, get_engine]
  split_ifs with h <;> first | rfl | (cases connect_test <;> rfl)

/-- Counterexample for C7: get_table_schema_string can raise to the caller.
With the connection environment variables present but the engine test
connection failing, the ConnectionError raised by get_engine inside
get_table_reflection is not caught by the except clause for ValueError and
RuntimeError, and propagates out of get_table_schema_string. -/
theorem get_table_schema_string_raises :
    get_table_schema_string ⟨some "scott", some "tiger", some "dsn"⟩
        (.error "network is unreachable") "RW_USER"
        (fun _ => .ok ⟨"electricvehicles", [⟨"VIN", "VARCHAR2(17)"⟩]⟩)
        "electricvehicles"
      = .error "Failed to create SQLAlchemy engine or connect: network is unreachable" :=
  rfl

/-- C7 as amended: when the engine call succeeds, get_table_schema_string
obtains the table structure through the single reflection call on table_name,
returning on success the header line followed by one line per column in
order, and on a reflection ValueError or RuntimeError the exception message
as the result string; the ValueError of get_engine for missing environment
variables is likewise caught and returned as the result string; but the
ConnectionError of a failed engine creation or test connection is not caught
and propagates to the caller. Given the engine outcome, the result depends on
nothing but the value of the one reflection call. -/
theorem get_table_schema_string_spec (cfg : DBConfig)
    (connect_test : Except String Unit) (schema table_name : String)
    (reflect : String → Except ReflectError ReflectedTable) :
    (∀ t : ReflectedTable,
        get_engine_typed cfg connect_test = .ok () →
        reflect table_name = .ok t →
        get_table_schema_string cfg connect_test schema reflect table_name
          = .ok ("Table: " ++ schema ++ "." ++ t.name ++ "\nColumns:\n"
              ++ schemaLines t.columns))
    ∧ (∀ e : ReflectError,
        get_engine_typed cfg connect_test = .ok () →
        reflect table_name = .error e →
        get_table_schema_string cfg connect_test schema reflect table_name
          = .ok e.message)
    ∧ (∀ m : String,
        get_engine_typed cfg connect_test = .error (.valueError m) →
        get_table_schema_string cfg connect_test schema reflect table_name = .ok m)
    ∧ (∀ m : String,
        get_engine_typed cfg connect_test = .error (.connectionError m) →
        get_table_schema_string cfg connect_test schema reflect table_name = .error m)
    ∧ (∀ reflect2 : String → Except ReflectError ReflectedTable,
        reflect2 table_name = reflect table_name →
        get_table_schema_string cfg connect_test schema reflect2 table_name
          = get_table_schema_string cfg connect_test schema reflect table_name) := by
  refine ⟨?_, ?_, ?_, ?_, ?_⟩
  · intro t heng ht
    simp only [get_table_schema_string, heng, ht]
    rw [foldl_schemaLines]
  · intro e heng he
    simp only [get_table_schema_string, heng, he]
  · intro m heng
    simp only [get_table_schema_string, heng]
  · intro m heng
    simp only [get_table_schema_string, heng]
  · intro reflect2 h2
    simp only [get_table_schema_string, h2]

/-- Witness for C7 as amended: with the engine available, a successful
reflection of a concrete one-column table yields the schema string, and with
the environment variables missing the ValueError message of get_engine is
returned as the result string rather than raised. -/
theorem get_table_schema_string_spec_witness :
    get_table_schema_string ⟨some "scott", some "tiger", some "dsn"⟩ (.ok ())
        "RW_USER" (fun _ => .ok ⟨"electricvehicles", [⟨"VIN", "VARCHAR2(17)"⟩]⟩)
        "electricvehicles"
      = .ok ("Table: " ++ "RW_USER" ++ "." ++ "electricvehicles" ++ "\nColumns:\n"
          ++ schemaLines [⟨"VIN", "VARCHAR2(17)"⟩])
    ∧ get_table_schema_string ⟨none, none, none⟩ (.ok ()) "RW_USER"
        (fun _ => .ok ⟨"electricvehicles", [⟨"VIN", "VARCHAR2(17)"⟩]⟩)
        "electricvehicles"
      = .ok "Database connection details (DB_USER, DB_PASSWORD, DB_DSN) not found in environment variables." :=
  ⟨(get_table_schema_string_spec ⟨some "scott", some "tiger", some "dsn"⟩ (.ok ())
      "RW_USER" "electricvehicles"
      (fun _ => .ok ⟨"electricvehicles", [⟨"VIN", "VARCHAR2(17)"⟩]⟩)).1
      ⟨"electricvehicles", [⟨"VIN", "VARCHAR2(17)"⟩]⟩ rfl rfl,
   (get_table_schema_string_spec ⟨none, none, none⟩ (.ok ()) "RW_USER"
      "electricvehicles"
      (fun _ => .ok ⟨"electricvehicles", [⟨"VIN", "VARCHAR2(17)"⟩]⟩)).2.2.1
      "Database connection details (DB_USER, DB_PASSWORD, DB_DSN) not found in environment variables."
      rfl⟩

/-- Counterexample for C8: the claim that query_database and execute_read_query
never propagate an exception is false. get_engine is called before the try
block of each function, so with the connection environment variables missing
its ValueError propagates out of both functions instead of being returned as
an error string. -/
theorem db_tools_engine_error_propagates :
    (query_database_run ⟨none, none, none⟩ (.ok ()) trivialDB
        "electricvehicles" "*" none none none none).result
      = .error "Database connection details (DB_USER, DB_PASSWORD, DB_DSN) not found in environment variables."
    ∧ (execute_read_query_run ⟨none, none, none⟩ (.ok ()) trivialDB
        (fun _ => .ok ⟨"electricvehicles", [⟨"VIN", "VARCHAR2(17)"⟩]⟩)
        "electricvehicles" none (some 5)).result
      = .error "Database connection details (DB_USER, DB_PASSWORD, DB_DSN) not found in environment variables." :=
  ⟨rfl, rfl⟩

/-- C8 as amended: once get_engine has succeeded, query_database and
execute_read_query are total at the string interface: every exception raised
inside their try blocks (connection, execution, fetching, and for
execute_read_query also reflection) is caught and converted into a returned
string, and the connection is closed exactly when it was opened, on success
and error paths alike. -/
theorem db_tools_total_after_engine :
    (∀ (cfg : DBConfig) (connect_test : Except String Unit) (db : OracleDB)
        (table_name select_columns : String)
        (conditions group_by_columns order_by_columns : Option String)
        (limit : Option Int),
        get_engine cfg connect_test = .ok () →
        (∃ s, (query_database_run cfg connect_test db table_name select_columns
                conditions group_by_columns order_by_columns limit).result = .ok s)
        ∧ (query_database_run cfg connect_test db table_name select_columns
              conditions group_by_columns order_by_columns limit).closed
            = (query_database_run cfg connect_test db table_name select_columns
                conditions group_by_columns order_by_columns limit).opened)
    ∧ (∀ (cfg : DBConfig) (connect_test : Except String Unit) (db : OracleDB)
        (reflect : String → Except ReflectError ReflectedTable)
        (table_name : String) (conditions : Option String) (limit : Option Int),
        get_engine cfg connect_test = .ok () →
        (∃ s, (execute_read_query_run cfg connect_test db reflect table_name
                conditions limit).result = .ok s)
        ∧ (execute_read_query_run cfg connect_test db reflect table_name
              conditions limit).closed
            = (execute_read_query_run cfg connect_test db reflect table_name
                conditions limit).opened) := by
  constructor
  · intro cfg connect_test db table_name select_columns conditions
      group_by_columns order_by_columns limit heng
    simp only [query_database_run, heng]
    cases hc : db.connect with
    | error e => simp
    | ok u =>
      cases hq : db.run_query (query_database_sql table_name select_columns
          conditions group_by_columns order_by_columns limit) with
      | error e => simp
      | ok res =>
        obtain ⟨cols, rows⟩ := res
        cases hrows : rows.isEmpty <;> simp [hrows]
  · intro cfg connect_test db reflect table_name conditions limit heng
    simp only [execute_read_query_run, heng]
    cases hrf : reflect table_name with
    | error e => simp
    | ok table =>
      cases hc : db.connect with
      | error e => simp
      | ok u =>
        cases hq : db.run_query (execute_read_query_sql table conditions limit) with
        | error e => simp [hq]
        | ok res =>
          obtain ⟨cols, rows⟩ := res
          cases rows with
          | nil => simp [hq]
          | cons r rs => simp [hq]

/-- Witness for C8 as amended: with the environment variables present and a
successful engine test, both tool functions return a string on the concrete
stub database and close what they open. -/
theorem db_tools_total_after_engine_witness :
    ((∃ s, (query_database_run ⟨some "scott", some "tiger", some "dsn"⟩ (.ok ())
            trivialDB "electricvehicles" "*" none none none none).result = .ok s)
      ∧ (query_database_run ⟨some "scott", some "tiger", some "dsn"⟩ (.ok ())
            trivialDB "electricvehicles" "*" none none none none).closed
          = (query_database_run ⟨some "scott", some "tiger", some "dsn"⟩ (.ok ())
              trivialDB "electricvehicles" "*" none none none none).opened)
    ∧ ((∃ s, (execute_read_query_run ⟨some "scott", some "tiger", some "dsn"⟩ (.ok ())
            trivialDB (fun _ => .ok ⟨"electricvehicles", [⟨"VIN", "VARCHAR2(17)"⟩]⟩)
            "electricvehicles" none (some 5)).result = .ok s)
      ∧ (execute_read_query_run ⟨some "scott", some "tiger", some "dsn"⟩ (.ok ())
            trivialDB (fun _ => .ok ⟨"electricvehicles", [⟨"VIN", "VARCHAR2(17)"⟩]⟩)
            "electricvehicles" none (some 5)).closed
          = (execute_read_query_run ⟨some "scott", some "tiger", some "dsn"⟩ (.ok ())
              trivialDB (fun _ => .ok ⟨"electricvehicles", [⟨"VIN", "VARCHAR2(17)"⟩]⟩)
              "electricvehicles" none (some 5)).opened) :=
  ⟨db_tools_total_after_engine.1 ⟨some "scott", some "tiger", some "dsn"⟩ (.ok ())
      trivialDB "electricvehicles" "*" none none none none rfl,
   db_tools_total_after_engine.2 ⟨some "scott", some "tiger", some "dsn"⟩ (.ok ())
      trivialDB (fun _ => .ok ⟨"electricvehicles", [⟨"VIN", "VARCHAR2(17)"⟩]⟩)
      "electricvehicles" none (some 5) rfl⟩

end RagOracle
